import Mathlib

set_option maxRecDepth 1000000

/-!
Verification of the Speech-Translate core against its specification.

This file gives a shallow embedding of the Engine/Language Compatibility
Resolver (`speech_translate/utils/translate/language.py`) and of the launch
gating / model-checking logic of the main window
(`speech_translate/ui/window/main.py`), and proves or refutes the spec's
claims about them.

Conventions:
* Python dictionaries are embedded as association lists (`List (String × String)`)
  or key lists (`List String`) with insertion-order, last-write-wins semantics.
* Python functions that can raise are embedded with `Option` results
  (`none` = the exception path).
* Vocabularies obtained at runtime from the external `deep_translator`
  library (Google / DeepL / MyMemory) are parameters of the embedding;
  the LibreTranslate vocabulary is a literal table in the source and is
  embedded concretely.
* Helpers that live in `speech_translate/utils/helper.py` and
  `speech_translate/utils/whisper/helper.py` (files the source tree does not
  provide) are modelled from the spec; each such definition says so in its
  doc comment.
-/

namespace SpeechTranslate

/-! ## Character and string utilities -/

/-- `Char.ofNat` evaluates to the given code point for any `Nat` below the
surrogate range. -/
theorem char_toNat_ofNat_of_lt {n : Nat} (h : n < 0xd800) : (Char.ofNat n).toNat = n := by
  rw [Char.ofNat, dif_pos (Or.inl h)]
  simp [Char.ofNatAux, Char.toNat, UInt32.ofNat', UInt32.toNat]

/-- Lowercasing after uppercasing a character is the same as lowercasing it. -/
theorem toLower_toUpper (c : Char) : (c.toUpper).toLower = c.toLower := by
  simp only [Char.toUpper, Char.toLower]
  by_cases h : c.toNat ≥ 97 ∧ c.toNat ≤ 122
  · rw [if_pos h, char_toNat_ofNat_of_lt (by omega)]
    rw [if_pos (by omega : c.toNat - 32 ≥ 65 ∧ c.toNat - 32 ≤ 90)]
    rw [if_neg (by omega)]
    have he : c.toNat - 32 + 32 = c.toNat := by omega
    rw [he, Char.ofNat_toNat]
  · rw [if_neg h]

/-- The only characters that uppercase to `A` are `a` and `A` itself. -/
theorem toUpper_eq_A {c : Char} (h : c.toUpper = 'A') : c = 'a' ∨ c = 'A' := by
  simp only [Char.toUpper] at h
  by_cases hc : c.toNat ≥ 97 ∧ c.toNat ≤ 122
  · rw [if_pos hc] at h
    left
    have hn := congrArg Char.toNat h
    rw [char_toNat_ofNat_of_lt (by omega)] at hn
    have hA : ('A' : Char).toNat = 65 := by decide
    rw [hA] at hn
    have h97 : c.toNat = 97 := by omega
    have := congrArg Char.ofNat h97
    rwa [Char.ofNat_toNat] at this
  · rw [if_neg hc] at h
    right
    exact h

/-- Python's `str.lower()` restricted to the basic-latin range used by the
language tables. -/
def lowerStr (s : String) : String := String.mk (s.data.map Char.toLower)

/-- Modelled from the spec: `up_first_case` from `utils/helper.py` (not in the
provided source tree).  The spec (§4.2) calls it "a human-casing transform";
it capitalizes the first character of a language name and leaves the rest
unchanged. -/
def up_first_case (s : String) : String :=
  match s.data with
  | [] => s
  | c :: rest => String.mk (c.toUpper :: rest)

theorem lowerStr_up_first_case (s : String) : lowerStr (up_first_case s) = lowerStr s := by
  cases s with
  | mk d =>
    cases d with
    | nil => rfl
    | cons c rest =>
      show String.mk (List.map Char.toLower (c.toUpper :: rest)) =
        String.mk (List.map Char.toLower (c :: rest))
      simp only [List.map, toLower_toUpper]

/-- Lexicographic (code-point) comparison of character lists, modelling
Python's `<` on strings. -/
def strLtB : List Char → List Char → Bool
  | [], [] => false
  | [], _ :: _ => true
  | _ :: _, [] => false
  | a :: as, b :: bs => if a < b then true else if b < a then false else strLtB as bs

/-- Python's `<` on strings (code-point lexicographic). -/
def strLt (a b : String) : Bool := strLtB a.data b.data

/-- Ordered insertion used to model Python's `list.sort()` on strings
(lexicographic by code point). -/
def insertSorted (x : String) : List String → List String
  | [] => [x]
  | y :: ys => if strLt x y then x :: y :: ys else y :: insertSorted x ys

/-- Model of Python's `list.sort()` on strings. -/
def sortStrings : List String → List String
  | [] => []
  | x :: xs => insertSorted x (sortStrings xs)

theorem mem_insertSorted {a x : String} {l : List String} :
    a ∈ insertSorted x l ↔ a = x ∨ a ∈ l := by
  induction l with
  | nil => simp [insertSorted]
  | cons y ys ih =>
    unfold insertSorted
    rcases Bool.eq_false_or_eq_true (strLt x y) with h | h
    · simp [h, ih]
      try tauto
    · simp [h]
      try tauto

theorem mem_sortStrings {a : String} {l : List String} :
    a ∈ sortStrings l ↔ a ∈ l := by
  induction l with
  | nil => simp [sortStrings]
  | cons x xs ih => simp [sortStrings, mem_insertSorted, ih]

/-- Is `pat` an initial segment of `l`? -/
def leadsWith : List Char → List Char → Bool
  | [], _ => true
  | _ :: _, [] => false
  | a :: as, b :: bs => a == b && leadsWith as bs

/-- Substring test on the underlying character lists, modelling Python's
`needle in haystack` on strings. -/
def hasSub : List Char → List Char → Bool
  | [], needle => needle.isEmpty
  | h :: t, needle => leadsWith needle (h :: t) || hasSub t needle

/-- Python's `needle in haystack` for strings. -/
def strContains (hay needle : String) : Bool := hasSub hay.data needle.data

/-! ## Dictionary embedding

Python dicts are embedded as association lists in insertion order; inserting
an existing key overwrites its value in place, a new key is appended. -/

def dictInsert (l : List (String × String)) (kv : String × String) :
    List (String × String) :=
  if l.any (fun p => p.1 == kv.1) then
    l.map (fun p => if p.1 == kv.1 then (p.1, kv.2) else p)
  else l ++ [kv]

def buildDict (entries : List (String × String)) : List (String × String) :=
  entries.foldl dictInsert []

/-- Key list of a dict built by successive insertions of the given keys
(`d[k] = v` on a plain key list). -/
def addKey (l : List String) (k : String) : List String :=
  if l.contains k then l else l ++ [k]

/-! ## `utils/translate/language.py`: static tables -/

/-- The Whisper tokenizer table `LANGUAGES` (code → name), copied verbatim in
`language.py`. -/
def LANGUAGES : List (String × String) :=
  [("en", "english"), ("zh", "chinese"), ("de", "german"), ("es", "spanish"),
   ("ru", "russian"), ("ko", "korean"), ("fr", "french"), ("ja", "japanese"),
   ("pt", "portuguese"), ("tr", "turkish"), ("pl", "polish"), ("ca", "catalan"),
   ("nl", "dutch"), ("ar", "arabic"), ("sv", "swedish"), ("it", "italian"),
   ("id", "indonesian"), ("hi", "hindi"), ("fi", "finnish"), ("vi", "vietnamese"),
   ("he", "hebrew"), ("uk", "ukrainian"), ("el", "greek"), ("ms", "malay"),
   ("cs", "czech"), ("ro", "romanian"), ("da", "danish"), ("hu", "hungarian"),
   ("ta", "tamil"), ("no", "norwegian"), ("th", "thai"), ("ur", "urdu"),
   ("hr", "croatian"), ("bg", "bulgarian"), ("lt", "lithuanian"), ("la", "latin"),
   ("mi", "maori"), ("ml", "malayalam"), ("cy", "welsh"), ("sk", "slovak"),
   ("te", "telugu"), ("fa", "persian"), ("lv", "latvian"), ("bn", "bengali"),
   ("sr", "serbian"), ("az", "azerbaijani"), ("sl", "slovenian"), ("kn", "kannada"),
   ("et", "estonian"), ("mk", "macedonian"), ("br", "breton"), ("eu", "basque"),
   ("is", "icelandic"), ("hy", "armenian"), ("ne", "nepali"), ("mn", "mongolian"),
   ("bs", "bosnian"), ("kk", "kazakh"), ("sq", "albanian"), ("sw", "swahili"),
   ("gl", "galician"), ("mr", "marathi"), ("pa", "punjabi"), ("si", "sinhala"),
   ("km", "khmer"), ("sn", "shona"), ("yo", "yoruba"), ("so", "somali"),
   ("af", "afrikaans"), ("oc", "occitan"), ("ka", "georgian"), ("be", "belarusian"),
   ("tg", "tajik"), ("sd", "sindhi"), ("gu", "gujarati"), ("am", "amharic"),
   ("yi", "yiddish"), ("lo", "lao"), ("uz", "uzbek"), ("fo", "faroese"),
   ("ht", "haitian creole"), ("ps", "pashto"), ("tk", "turkmen"), ("nn", "nynorsk"),
   ("mt", "maltese"), ("sa", "sanskrit"), ("lb", "luxembourgish"), ("my", "myanmar"),
   ("bo", "tibetan"), ("tl", "tagalog"), ("mg", "malagasy"), ("as", "assamese"),
   ("tt", "tatar"), ("haw", "hawaiian"), ("ln", "lingala"), ("ha", "hausa"),
   ("ba", "bashkir"), ("jw", "javanese"), ("su", "sundanese"), ("yue", "cantonese")]

/-- `TO_LANGUAGE_CODE`: the inverted `LANGUAGES` table followed by the alias
entries, with Python dict semantics. -/
def TO_LANGUAGE_CODE : List (String × String) :=
  buildDict
    (LANGUAGES.map (fun p => (p.2, p.1)) ++
     [("burmese", "my"), ("valencian", "ca"), ("flemish", "nl"), ("haitian", "ht"),
      ("letzeburgesch", "lb"), ("pushto", "ps"), ("panjabi", "pa"), ("moldavian", "ro"),
      ("moldovan", "ro"), ("sinhalese", "si"), ("castilian", "es"), ("mandarin", "zh")])

/-- `WHISPER_LANG_LIST = sorted(TO_LANGUAGE_CODE.keys())`. -/
def WHISPER_LANG_LIST : List String := sortStrings (TO_LANGUAGE_CODE.map Prod.fst)

/-- `WHISPER_CODE_TO_NAME = {v: k for k, v in TO_LANGUAGE_CODE.items()}`
(later entries overwrite earlier ones for duplicated codes). -/
def WHISPER_CODE_TO_NAME : List (String × String) :=
  buildDict (TO_LANGUAGE_CODE.map (fun p => (p.2, p.1)))

/-- The LibreTranslate vocabulary `LIBRE_KEY_VAL`, a literal table in
`language.py`. -/
def LIBRE_KEY_VAL : List (String × String) :=
  [("auto detect", "auto"), ("english", "en"), ("albanian", "sq"), ("arabic", "ar"),
   ("azerbaijani", "az"), ("bengali", "bn"), ("bulgarian", "bg"), ("catalan", "ca"),
   ("chinese", "zh"), ("chinese (traditional)", "zt"), ("czech", "cs"),
   ("danish", "da"), ("dutch", "nl"), ("esperanto", "eo"), ("finnish", "fi"),
   ("french", "fr"), ("german", "de"), ("greek", "el"), ("hebrew", "he"),
   ("hindi", "hi"), ("hungarian", "hu"), ("indonesian", "id"), ("irish", "ga"),
   ("italian", "it"), ("japanese", "ja"), ("korean", "ko"), ("latvian", "lv"),
   ("lithuanian", "lt"), ("malay", "ms"), ("norwegian", "nb"), ("persian", "fa"),
   ("polish", "pl"), ("portuguese", "pt"), ("romanian", "ro"), ("russian", "ru"),
   ("serbian", "sr"), ("slovak", "sk"), ("slovenian", "sl"), ("spanish", "es"),
   ("swedish", "sv"), ("tagalog", "tl"), ("thai", "th"), ("turkish", "tr"),
   ("ukrainian", "uk"), ("urdu", "ur"), ("vietnamese", "vi")]

/-- Key lists of the runtime vocabularies after the fix-ups `language.py`
applies to `GOOGLE_KEY_VAL`: add `"auto detect"`, and rename `"filipino"` to
`"filipino (tagalog)"` when present.  The raw key list `g` comes from the
external `deep_translator` library and is a parameter of the embedding. -/
def googleKeys (g : List String) : List String :=
  let g1 := addKey g "auto detect"
  if g1.contains "filipino" then addKey (g1.erase "filipino") "filipino (tagalog)"
  else g1

/-- Key list of `MYMEMORY_KEY_VAL` after the fix-ups in `language.py`:
rename `"filipino"` when present, then pop the six keys known to error.
The raw key list `m` comes from the external library. -/
def mymemoryKeys (m : List String) : List String :=
  let m1 := if m.contains "filipino" then addKey (m.erase "filipino") "filipino (tagalog)"
    else m
  ((((((m1.erase "aymara").erase "dogri").erase "javanese").erase "konkani").erase
    "krio").erase "oromo")

/-! ## `language.py`: target and source list pipelines

`g`, `d`, `m` are the raw key lists of the Google / DeepL / MyMemory
vocabularies fetched from the external `deep_translator` library. -/

/-- `WHISPER_TARGET = ["English"]`: a local model can only translate into
English. -/
def WHISPER_TARGET : List String := ["English"]

def LIBRE_KEYS : List String := LIBRE_KEY_VAL.map Prod.fst

/-- `GOOGLE_TARGET`: Google keys minus `"auto detect"`, human-cased, sorted. -/
def GOOGLE_TARGET (g : List String) : List String :=
  sortStrings (((googleKeys g).erase "auto detect").map up_first_case)

/-- `DEEPL_TARGET`: DeepL keys human-cased and sorted (no auto-detect removal
in the source: the DeepL vocabulary is assumed not to contain one). -/
def DEEPL_TARGET (d : List String) : List String :=
  sortStrings (d.map up_first_case)

/-- `LIBRE_TARGET`: Libre keys minus `"auto detect"`, human-cased, sorted. -/
def LIBRE_TARGET : List String :=
  sortStrings ((LIBRE_KEYS.erase "auto detect").map up_first_case)

/-- `MY_MEMORY_TARGET`: MyMemory keys human-cased and sorted ("no auto for
mymemory"). -/
def MY_MEMORY_TARGET (m : List String) : List String :=
  sortStrings ((mymemoryKeys m).map up_first_case)

/-- Modelled from the spec: `get_similar_in_list` from `utils/helper.py` (not
in the provided source tree).  Per spec §4.2 the compatibility test "is by
exact normalized-name match, not by code": the function returns the entries of
the list whose normalized (lowercased) form equals that of the search key. -/
def get_similar_in_list (l : List String) (search : String) : List String :=
  l.filter (fun k => lowerStr search == lowerStr k)

/-- The `to_remove` filtering loop applied to each remote-engine target list:
keep the languages for which `get_similar_in_list(WHISPER_LANG_LIST, lang)`
is non-empty. -/
def whisperCompatFilter (target_list : List String) : List String :=
  let to_remove :=
    target_list.filter (fun lang => (get_similar_in_list WHISPER_LANG_LIST lang).isEmpty)
  target_list.filter (fun x => !to_remove.contains x)

def GOOGLE_WHISPER_COMPATIBLE (g : List String) : List String :=
  whisperCompatFilter (GOOGLE_TARGET g)

def DEEPL_WHISPER_COMPATIBLE (d : List String) : List String :=
  whisperCompatFilter (DEEPL_TARGET d)

def LIBRE_WHISPER_COMPATIBLE : List String :=
  whisperCompatFilter LIBRE_TARGET

def MYMEMORY_WHISPER_COMPATIBLE (m : List String) : List String :=
  whisperCompatFilter (MY_MEMORY_TARGET m)

def WHISPER_LIST_UPPED : List String :=
  sortStrings (WHISPER_LANG_LIST.map up_first_case)

/-- Final value of `WHISPER_SOURCE_V3` (copied before `"Cantonese"` is removed
from `WHISPER_SOURCE`). -/
def WHISPER_SOURCE_V3 : List String := "Auto detect" :: WHISPER_LIST_UPPED

/-- Final value of `WHISPER_SOURCE`: the V3 list with `"Cantonese"` removed. -/
def WHISPER_SOURCE : List String := WHISPER_SOURCE_V3.erase "Cantonese"

def GOOGLE_SOURCE (g : List String) : List String :=
  "Auto detect" :: sortStrings ((GOOGLE_WHISPER_COMPATIBLE g).map up_first_case)

def DEEPL_SOURCE (d : List String) : List String :=
  sortStrings ((DEEPL_WHISPER_COMPATIBLE d).map up_first_case)

def LIBRE_SOURCE : List String :=
  "Auto detect" :: sortStrings (LIBRE_WHISPER_COMPATIBLE.map up_first_case)

def MYMEMORY_SOURCE (m : List String) : List String :=
  sortStrings ((MYMEMORY_WHISPER_COMPATIBLE m).map up_first_case)

/-- Modelled from the spec: `model_keys` from `utils/whisper/helper.py` (not
in the provided source tree) — the display labels of the seven local
Whisper-family model variants, matching the local-model keys of
`TL_ENGINE_SOURCE_DICT` / `TL_ENGINE_TARGET_DICT` in `language.py`. -/
def model_keys : List String :=
  ["⚡ Tiny [1GB VRAM] (Fastest)", "🚀 Base [1GB VRAM] (Faster)",
   "⛵ Small [2GB VRAM] (Moderate)", "🌀 Medium [5GB VRAM] (Accurate)",
   "🐌 Large V1 [10GB VRAM] (Most Accurate)", "🐌 Large V2 [10GB VRAM] (Most Accurate)",
   "🐌 Large V3 [10GB VRAM] (Most Accurate)"]

/-- `TL_ENGINE_TARGET_DICT`: per-engine resolved target lists. -/
def TL_ENGINE_TARGET_DICT (g d m : List String) : List (String × List String) :=
  [("⚡ Tiny [1GB VRAM] (Fastest)", WHISPER_TARGET),
   ("🚀 Base [1GB VRAM] (Faster)", WHISPER_TARGET),
   ("⛵ Small [2GB VRAM] (Moderate)", WHISPER_TARGET),
   ("🌀 Medium [5GB VRAM] (Accurate)", WHISPER_TARGET),
   ("🐌 Large V1 [10GB VRAM] (Most Accurate)", WHISPER_TARGET),
   ("🐌 Large V2 [10GB VRAM] (Most Accurate)", WHISPER_TARGET),
   ("🐌 Large V3 [10GB VRAM] (Most Accurate)", WHISPER_TARGET),
   ("Google Translate", GOOGLE_TARGET g),
   ("DEEPL Translate", DEEPL_TARGET d),
   ("LibreTranslate", LIBRE_TARGET),
   ("MyMemoryTranslator", MY_MEMORY_TARGET m)]

/-- `TL_ENGINE_SOURCE_DICT`: per-engine resolved source lists (only the
Large V3 local variant maps to the list with Cantonese). -/
def TL_ENGINE_SOURCE_DICT (g d m : List String) : List (String × List String) :=
  [("⚡ Tiny [1GB VRAM] (Fastest)", WHISPER_SOURCE),
   ("🚀 Base [1GB VRAM] (Faster)", WHISPER_SOURCE),
   ("⛵ Small [2GB VRAM] (Moderate)", WHISPER_SOURCE),
   ("🌀 Medium [5GB VRAM] (Accurate)", WHISPER_SOURCE),
   ("🐌 Large V1 [10GB VRAM] (Most Accurate)", WHISPER_SOURCE),
   ("🐌 Large V2 [10GB VRAM] (Most Accurate)", WHISPER_SOURCE),
   ("🐌 Large V3 [10GB VRAM] (Most Accurate)", WHISPER_SOURCE_V3),
   ("Google Translate", GOOGLE_SOURCE g),
   ("DEEPL Translate", DEEPL_SOURCE d),
   ("LibreTranslate", LIBRE_SOURCE),
   ("MyMemoryTranslator", MYMEMORY_SOURCE m)]

/-- `verify_language_in_key(search, engine)`: membership of `search` in the
engine's vocabulary keys; `none` models the `ValueError` raised for an
unknown engine. -/
def verify_language_in_key (g d m : List String) (search engine : String) :
    Option Bool :=
  if engine = "Google Translate" then some ((googleKeys g).contains search)
  else if engine = "LibreTranslate" then some (LIBRE_KEYS.contains search)
  else if engine = "MyMemoryTranslator" then some ((mymemoryKeys m).contains search)
  else if engine = "DEEPL Translate" then some (d.contains search)
  else none

/-- `get_whisper_lang_name(search)`: identity for strings longer than three
characters, otherwise a `WHISPER_CODE_TO_NAME` dictionary lookup; `none`
models the `KeyError` raised when the lookup misses. -/
def get_whisper_lang_name (search : String) : Option String :=
  if search.length > 3 then some search
  else (WHISPER_CODE_TO_NAME.lookup search)

/-- `get_whisper_lang_source(cur_model)`: the V3 source list iff the model
label contains the substring `"V3"`. -/
def get_whisper_lang_source (cur_model : String) : List String :=
  if strContains cur_model "V3" then WHISPER_SOURCE_V3 else WHISPER_SOURCE

/-! ## `ui/window/main.py`: model checking and launch gating

The UI wiring is abstracted to the data each guard reads: widget/thread state
becomes explicit booleans, `mbox` confirmations become boolean oracles, and
the `verify_model_*` call becomes an oracle that either answers or raises. -/

/-- Modelled from the spec: `append_dot_en` from `utils/whisper/helper.py`
(not in the provided source tree): resolves the concrete model name from the
model key and the English-only locale heuristic (spec §3, `ModelRef`). -/
def append_dot_en (key : String) (is_english use_en_model : Bool) : String :=
  if is_english && use_en_model then key ++ ".en" else key

/-- Result of the `verify_model_whisper` / `verify_model_faster_whisper` call
inside `check_model`: a presence answer, or a raised exception carrying its
message. -/
inductive VerifyOutcome where
  | ok (present : Bool)
  | exn (msg : String)
deriving DecidableEq

/-- The `sj.cache` settings read by `check_model`. -/
structure CheckSettings where
  use_faster_whisper : Bool
  use_en_model : Bool
  bypass_no_internet : Bool
deriving DecidableEq

/-- What a `check_model` call returns and does: the `(status, model_name)`
pair, and whether a download thread was spawned. -/
structure CheckResult where
  status : Bool
  model : String
  dl_spawned : Bool
deriving DecidableEq

/-- `MainWindow.check_model(key, is_english, ...)`.  `verify` is the model
store oracle (taking the faster-whisper flag and the resolved model name);
`confirm_download` is the user's answer to the "download it now?" prompt,
consulted only when the model is reported absent. -/
def check_model (st : CheckSettings) (key : String) (is_english : Bool)
    (force_original_whisper : Bool) (verify : Bool → String → VerifyOutcome)
    (confirm_download : Bool) : CheckResult :=
  let model_name := append_dot_en key is_english st.use_en_model
  let use_faster := if force_original_whisper then false else st.use_faster_whisper
  match verify use_faster model_name with
  | .ok true => ⟨true, model_name, false⟩
  | .ok false => ⟨false, "", confirm_download⟩
  | .exn msg =>
    if strContains msg "HTTPSConnectionPool" then
      if st.bypass_no_internet then ⟨true, model_name, false⟩
      else ⟨false, "", false⟩
    else ⟨false, "", false⟩

/-- The arguments a launch entry point reads from the UI (`get_args` for
`rec`, the dialog callback arguments for `import_file.do_process`).  `source`
and `target` are already lowercased. -/
structure LaunchArgs where
  tc : Bool
  tl : Bool
  m_key : String
  tl_engine : String
  source : String
  target : String
deriving DecidableEq

/-- The gate/environment state a launch entry point reads. -/
structure GateEnv where
  /-- `bc.dl_thread and bc.dl_thread.is_alive()` -/
  dl_alive : Bool
  /-- `"disabled" in <launch widget>.state()` -/
  btn_disabled : Bool
  is_speaker : Bool
  is_windows : Bool
  /-- `sj.cache["libre_link"].strip() != ""` -/
  libre_link_set : Bool
  supress_libre_api_key_warning : Bool
  /-- `sj.cache["libre_api_key"].strip() != ""` -/
  libre_api_key_set : Bool
  /-- user's answer to the missing-API-key warning -/
  confirm_libre_no_key : Bool
deriving DecidableEq

inductive LaunchResult where
  /-- a model download is in flight -/
  | busyDownloading
  /-- the launch widget is disabled -/
  | widgetDisabled
  | speakerNotSupported
  /-- source == target while translate is requested -/
  | configInvalid
  /-- a `check_model` call returned a false status -/
  | checkStopped
  /-- the `model_tc is not None` assertion failed -/
  | assertFailed
  | libreLinkMissing
  | libreKeyDeclined
  /-- flags flipped and the worker thread started with these arguments -/
  | launched (model_tc : String) (tl_engine : String)
deriving DecidableEq

/-- A launch attempt's observable effects: its result, the keys passed to
`check_model` in call order, and whether the primary worker was started
(recording / file-processing flag enabled and thread spawned). -/
structure LaunchTrace where
  result : LaunchResult
  checkCalls : List String
  opStarted : Bool
deriving DecidableEq

/-- The model-resolution and launch body shared verbatim between `rec` and
`import_file.do_process` (the source duplicates it): the two conditional
`check_model` calls, the translate-only model reuse, the `model_tc`
assertion, the LibreTranslate configuration guard, and the worker start. -/
def launchCore (env : GateEnv) (a : LaunchArgs) (st : CheckSettings)
    (verify : Bool → String → VerifyOutcome) (confirm_download : Bool) :
    LaunchTrace :=
  let tl_whisper := model_keys.contains a.tl_engine
  let is_english := a.source == "english"
  let first_needed := (a.tl && !tl_whisper) || a.tc
  let r1 := check_model st a.m_key is_english false verify confirm_download
  if first_needed && !r1.status then ⟨.checkStopped, [a.m_key], false⟩
  else
    let calls1 : List String := if first_needed then [a.m_key] else []
    let model_tc1 : Option String := if first_needed then some r1.model else none
    let second_needed := a.tl && tl_whisper
    let r2 := check_model st a.tl_engine is_english false verify confirm_download
    if second_needed && !r2.status then ⟨.checkStopped, calls1 ++ [a.tl_engine], false⟩
    else
      let calls := calls1 ++ (if second_needed then [a.tl_engine] else [])
      let tl_engine2 := if second_needed then r2.model else a.tl_engine
      let model_tc2 := if a.tl && !a.tc && tl_whisper then some tl_engine2 else model_tc1
      match model_tc2 with
      | none => ⟨.assertFailed, calls, false⟩
      | some mtc =>
        if a.tl && tl_engine2 == "LibreTranslate" then
          if !env.libre_link_set then ⟨.libreLinkMissing, calls, false⟩
          else if !env.supress_libre_api_key_warning && !env.libre_api_key_set
              && !env.confirm_libre_no_key then
            ⟨.libreKeyDeclined, calls, false⟩
          else ⟨.launched mtc tl_engine2, calls, true⟩
        else ⟨.launched mtc tl_engine2, calls, true⟩

/-- `MainWindow.rec`: the record entry point. -/
def rec (env : GateEnv) (a : LaunchArgs) (st : CheckSettings)
    (verify : Bool → String → VerifyOutcome) (confirm_download : Bool) :
    LaunchTrace :=
  if env.dl_alive then ⟨.busyDownloading, [], false⟩
  else if env.btn_disabled then ⟨.widgetDisabled, [], false⟩
  else if env.is_speaker && !env.is_windows then ⟨.speakerNotSupported, [], false⟩
  else if a.source == a.target && a.tl then ⟨.configInvalid, [], false⟩
  else launchCore env a st verify confirm_download

/-- `MainWindow.import_file.do_process`: the file-import dialog callback. -/
def import_do_process (env : GateEnv) (a : LaunchArgs) (st : CheckSettings)
    (verify : Bool → String → VerifyOutcome) (confirm_download : Bool) :
    LaunchTrace :=
  if a.source == a.target && a.tl then ⟨.configInvalid, [], false⟩
  else launchCore env a st verify confirm_download

/-- `MainWindow.import_file`: the outer guards, then the dialog whose
submission runs `do_process`. -/
def import_file (env : GateEnv) (a : LaunchArgs) (st : CheckSettings)
    (verify : Bool → String → VerifyOutcome) (confirm_download : Bool) :
    LaunchTrace :=
  if env.dl_alive then ⟨.busyDownloading, [], false⟩
  else if env.btn_disabled then ⟨.widgetDisabled, [], false⟩
  else import_do_process env a st verify confirm_download

/-! ## Claim theorems -/

/-- The Large V3 model label. -/
def largeV3Key : String := "🐌 Large V3 [10GB VRAM] (Most Accurate)"

theorem cantonese_mem_v3 : "Cantonese" ∈ WHISPER_SOURCE_V3 := by decide

theorem whisper_source_eq_erase : WHISPER_SOURCE = WHISPER_SOURCE_V3.erase "Cantonese" := rfl

theorem cantonese_not_mem_whisper_source : "Cantonese" ∉ WHISPER_SOURCE := by decide

/-- Claim C4: for the local Whisper-family engine, the resolved source list
contains "Cantonese" iff the selected variant is the Large V3 variant; for
every other variant the token is absent, and the V3 list differs from the
non-V3 list in exactly that one language. -/
theorem whisper_source_cantonese_iff_v3 :
    (∀ k ∈ model_keys,
      ("Cantonese" ∈ get_whisper_lang_source k ↔ k = largeV3Key)) ∧
    "Cantonese" ∈ WHISPER_SOURCE_V3 ∧ "Cantonese" ∉ WHISPER_SOURCE ∧
    (∀ t : String, t ≠ "Cantonese" → (t ∈ WHISPER_SOURCE_V3 ↔ t ∈ WHISPER_SOURCE)) ∧
    WHISPER_SOURCE_V3.length = WHISPER_SOURCE.length + 1 := by
  have hv3 := cantonese_mem_v3
  have hns := cantonese_not_mem_whisper_source
  refine ⟨?_, hv3, hns, ?_, ?_⟩
  · intro k hk
    simp only [model_keys, List.mem_cons, List.not_mem_nil, or_false] at hk
    rcases hk with rfl | rfl | rfl | rfl | rfl | rfl | rfl
    all_goals constructor
    all_goals intro h
    all_goals first
      | rfl
      | (exact absurd h hns)
      | (exact absurd h (by decide))
      | (exact hv3)
  · intro t ht
    rw [whisper_source_eq_erase]
    exact (List.mem_erase_of_ne ht).symm
  · rw [whisper_source_eq_erase, List.length_erase_of_mem hv3]
    have : 0 < WHISPER_SOURCE_V3.length := List.length_pos_of_mem hv3
    omega

/-- Claim C4 witness: concrete variants on both sides of the special case. -/
theorem whisper_source_cantonese_iff_v3_witness :
    ("Cantonese" ∈ get_whisper_lang_source largeV3Key ↔ largeV3Key = largeV3Key) ∧
    ("Cantonese" ∈ get_whisper_lang_source "⚡ Tiny [1GB VRAM] (Fastest)" ↔
      "⚡ Tiny [1GB VRAM] (Fastest)" = largeV3Key) ∧
    ("Tagalog" ≠ "Cantonese" → ("Tagalog" ∈ WHISPER_SOURCE_V3 ↔ "Tagalog" ∈ WHISPER_SOURCE)) :=
  ⟨whisper_source_cantonese_iff_v3.1 largeV3Key (by decide),
   whisper_source_cantonese_iff_v3.1 "⚡ Tiny [1GB VRAM] (Fastest)" (by decide),
   whisper_source_cantonese_iff_v3.2.2.2.1 "Tagalog"⟩

/-- Claim C8: every Whisper-family engine selection resolves to the single
fixed target list `["English"]` (independent of any other choice). -/
theorem whisper_engine_target_is_english (g d m : List String) :
    ∀ k ∈ model_keys,
      (TL_ENGINE_TARGET_DICT g d m).lookup k = some WHISPER_TARGET ∧
      WHISPER_TARGET = ["English"] := by
  intro k hk
  simp only [model_keys, List.mem_cons, List.not_mem_nil, or_false] at hk
  rcases hk with rfl | rfl | rfl | rfl | rfl | rfl | rfl <;> exact ⟨rfl, rfl⟩

/-- Claim C8 witness: the Tiny variant at empty external vocabularies. -/
theorem whisper_engine_target_is_english_witness :
    (TL_ENGINE_TARGET_DICT [] [] []).lookup "⚡ Tiny [1GB VRAM] (Fastest)" =
      some WHISPER_TARGET ∧ WHISPER_TARGET = ["English"] :=
  whisper_engine_target_is_english [] [] [] "⚡ Tiny [1GB VRAM] (Fastest)" (by decide)

/-- Claim C10: `get_whisper_lang_name` returns its argument unchanged for
inputs longer than three characters, performs a code-to-name lookup for
shorter inputs, and in particular fails (KeyError, modelled as `none`) on the
three-letter language *name* "lao", which is not a code. -/
theorem get_whisper_lang_name_spec :
    (∀ s : String, s.length > 3 → get_whisper_lang_name s = some s) ∧
    (∀ s : String, ¬ s.length > 3 →
      get_whisper_lang_name s = WHISPER_CODE_TO_NAME.lookup s) ∧
    get_whisper_lang_name "lao" = none := by
  refine ⟨?_, ?_, ?_⟩
  · intro s h
    simp [get_whisper_lang_name, h]
  · intro s h
    simp [get_whisper_lang_name, h]
  · decide

/-- Claim C10 witness: a long name is returned unchanged, a code is looked
up. -/
theorem get_whisper_lang_name_spec_witness :
    get_whisper_lang_name "french" = some "french" ∧
    get_whisper_lang_name "fr" = WHISPER_CODE_TO_NAME.lookup "fr" :=
  ⟨get_whisper_lang_name_spec.1 "french" (by decide),
   get_whisper_lang_name_spec.2.1 "fr" (by decide)⟩

/-- Every token produced by the compatibility-filter pipeline (filter a
target list against the Whisper list, human-case, sort) has an exact
lowercased-name counterpart in the Whisper vocabulary. -/
theorem compat_pipeline_exact_counterpart (l : List String) (t : String)
    (ht : t ∈ sortStrings ((whisperCompatFilter l).map up_first_case)) :
    ∃ k ∈ WHISPER_LANG_LIST, lowerStr t = lowerStr k := by
  rw [mem_sortStrings] at ht
  rcases List.mem_map.1 ht with ⟨x, hx, rfl⟩
  unfold whisperCompatFilter at hx
  rcases List.mem_filter.1 hx with ⟨hxl, hcond⟩
  simp at hcond
  rcases hcond with h | h
  · exact absurd hxl h
  · rcases List.exists_mem_of_ne_nil _ h with ⟨k, hk⟩
    rcases List.mem_filter.1 hk with ⟨hkw, hkeq⟩
    exact ⟨k, hkw, by rw [lowerStr_up_first_case]; exact eq_of_beq hkeq⟩

/-- Claim C5 counterexample: the resolved LibreTranslate source list (a
remote translation API engine) contains the pinned token "Auto detect",
which has no exact normalized-name counterpart in the Whisper vocabulary. -/
theorem libre_source_autodetect_counterexample :
    "Auto detect" ∈ LIBRE_SOURCE ∧
    WHISPER_LANG_LIST.all
      (fun k => !(lowerStr "Auto detect" == lowerStr k)) = true := by decide

/-- Claim C5 (amended): for every remote translation API engine, every token
of the resolved source list other than the pinned "Auto detect" entry has an
exact normalized-name (lowercased) counterpart in the Whisper vocabulary. -/
theorem remote_source_exact_whisper_counterpart (g d m : List String) :
    ∀ engine tokens, (engine, tokens) ∈ TL_ENGINE_SOURCE_DICT g d m →
      engine ∈ (["Google Translate", "DEEPL Translate", "LibreTranslate",
        "MyMemoryTranslator"] : List String) →
      ∀ t ∈ tokens, t ≠ "Auto detect" →
        ∃ k ∈ WHISPER_LANG_LIST, lowerStr t = lowerStr k := by
  intro engine tokens hmem heng t ht hne
  simp only [TL_ENGINE_SOURCE_DICT, List.mem_cons, List.not_mem_nil, or_false,
    Prod.mk.injEq] at hmem
  rcases hmem with ⟨rfl, rfl⟩ | hmem
  · exact absurd heng (by decide)
  rcases hmem with ⟨rfl, rfl⟩ | hmem
  · exact absurd heng (by decide)
  rcases hmem with ⟨rfl, rfl⟩ | hmem
  · exact absurd heng (by decide)
  rcases hmem with ⟨rfl, rfl⟩ | hmem
  · exact absurd heng (by decide)
  rcases hmem with ⟨rfl, rfl⟩ | hmem
  · exact absurd heng (by decide)
  rcases hmem with ⟨rfl, rfl⟩ | hmem
  · exact absurd heng (by decide)
  rcases hmem with ⟨rfl, rfl⟩ | hmem
  · exact absurd heng (by decide)
  rcases hmem with ⟨rfl, rfl⟩ | hmem
  · rcases List.mem_cons.1 ht with rfl | ht2
    · exact absurd rfl hne
    · exact compat_pipeline_exact_counterpart (GOOGLE_TARGET g) t ht2
  rcases hmem with ⟨rfl, rfl⟩ | hmem
  · exact compat_pipeline_exact_counterpart (DEEPL_TARGET d) t ht
  rcases hmem with ⟨rfl, rfl⟩ | ⟨rfl, rfl⟩
  · rcases List.mem_cons.1 ht with rfl | ht2
    · exact absurd rfl hne
    · exact compat_pipeline_exact_counterpart LIBRE_TARGET t ht2
  · exact compat_pipeline_exact_counterpart (MY_MEMORY_TARGET m) t ht

/-- Claim C5 witness: the LibreTranslate source token "English" has an exact
normalized counterpart in the Whisper vocabulary. -/
theorem remote_source_exact_whisper_counterpart_witness :
    ∃ k ∈ WHISPER_LANG_LIST, lowerStr "English" = lowerStr k :=
  remote_source_exact_whisper_counterpart [] [] [] "LibreTranslate" LIBRE_SOURCE
    (by decide) (by decide) "English" (by decide) (by decide)

/-- Claim C6 counterexample: resolving sources for the LibreTranslate engine
yields the token "English", but `verify_language_in_key` rejects it — the
catalog keys are lowercase while resolved tokens are human-cased. -/
theorem roundtrip_counterexample :
    "English" ∈ LIBRE_SOURCE ∧
    verify_language_in_key [] [] [] "English" "LibreTranslate" = some false := by
  decide

/-- Claim C6 (amended): the round trip succeeds only after normalizing the
resolved tokens back to lowercase: every token of the LibreTranslate resolved
source list is supported by that engine's catalog after lowercasing. -/
theorem libre_roundtrip_lowered (g d m : List String) :
    ∀ t ∈ LIBRE_SOURCE,
      verify_language_in_key g d m (lowerStr t) "LibreTranslate" = some true := by
  have h : ∀ t ∈ LIBRE_SOURCE, LIBRE_KEYS.contains (lowerStr t) = true := by decide
  intro t ht
  unfold verify_language_in_key
  rw [if_neg (by decide), if_pos rfl, h t ht]

/-- Claim C6 witness: the lowered token "english" passes the LibreTranslate
catalog check. -/
theorem libre_roundtrip_lowered_witness :
    verify_language_in_key [] [] [] (lowerStr "English") "LibreTranslate" =
      some true :=
  libre_roundtrip_lowered [] [] [] "English" (by decide)

/-! ## Claim C7: no auto-detect token in any resolved target list -/

theorem mem_addKey {l : List String} {k x : String} (h : x ∈ addKey l k) :
    x ∈ l ∨ x = k := by
  unfold addKey at h
  split at h
  · exact Or.inl h
  · rcases List.mem_append.1 h with h | h
    · exact Or.inl h
    · exact Or.inr (List.mem_singleton.1 h)

theorem nodup_addKey {l : List String} {k : String} (h : l.Nodup) :
    (addKey l k).Nodup := by
  unfold addKey
  split
  · exact h
  · rename_i hcon
    refine List.Nodup.append h (List.nodup_singleton k) ?_
    intro a ha hb
    rw [List.mem_singleton] at hb
    subst hb
    simp at hcon
    exact hcon ha

theorem mem_googleKeys {g : List String} {x : String} (h : x ∈ googleKeys g) :
    x ∈ g ∨ x = "auto detect" ∨ x = "filipino (tagalog)" := by
  simp only [googleKeys] at h
  split at h
  · rcases mem_addKey h with h | h
    · rcases mem_addKey (List.mem_of_mem_erase h) with h | h
      · exact Or.inl h
      · exact Or.inr (Or.inl h)
    · exact Or.inr (Or.inr h)
  · rcases mem_addKey h with h | h
    · exact Or.inl h
    · exact Or.inr (Or.inl h)

theorem nodup_googleKeys {g : List String} (h : g.Nodup) : (googleKeys g).Nodup := by
  simp only [googleKeys]
  split
  · exact nodup_addKey ((nodup_addKey h).erase _)
  · exact nodup_addKey h

theorem mem_mymemoryKeys {m : List String} {x : String} (h : x ∈ mymemoryKeys m) :
    x ∈ m ∨ x = "filipino (tagalog)" := by
  simp only [mymemoryKeys] at h
  have h1 := List.mem_of_mem_erase (List.mem_of_mem_erase (List.mem_of_mem_erase
    (List.mem_of_mem_erase (List.mem_of_mem_erase (List.mem_of_mem_erase h)))))
  split at h1
  · rcases mem_addKey h1 with h2 | h2
    · exact Or.inl (List.mem_of_mem_erase h2)
    · exact Or.inr h2
  · exact Or.inl h1

theorem toUpper_ne_lower_a (c : Char) : c.toUpper ≠ 'a' := by
  simp only [Char.toUpper]
  by_cases hc : c.toNat ≥ 97 ∧ c.toNat ≤ 122
  · rw [if_pos hc]
    intro h
    have hn := congrArg Char.toNat h
    rw [char_toNat_ofNat_of_lt (by omega)] at hn
    have ha : ('a' : Char).toNat = 97 := by decide
    omega
  · rw [if_neg hc]
    intro h
    subst h
    exact hc ⟨by decide, by decide⟩

theorem up_first_case_ne_lower_autodetect (x : String) :
    up_first_case x ≠ "auto detect" := by
  cases x with
  | mk data =>
    cases data with
    | nil => decide
    | cons c rest =>
      intro h
      have hd : c.toUpper :: rest = "auto detect".data :=
        congrArg String.data h
      have : c.toUpper = 'a' := (List.cons.injEq _ _ _ _ ▸ hd).1
      exact toUpper_ne_lower_a c this

theorem up_first_case_eq_autodetect {x : String}
    (h : up_first_case x = "Auto detect") :
    x = "Auto detect" ∨ x = "auto detect" := by
  cases x with
  | mk data =>
    cases data with
    | nil => exact absurd h (by decide)
    | cons c rest =>
      have hd : c.toUpper :: rest = "Auto detect".data := congrArg String.data h
      have hc : c.toUpper = 'A' := (List.cons.injEq _ _ _ _ ▸ hd).1
      have hr : rest = "uto detect".data := (List.cons.injEq _ _ _ _ ▸ hd).2
      subst hr
      rcases toUpper_eq_A hc with rfl | rfl
      · right; decide
      · left; decide

theorem autodetect_not_mem_erase {g : List String} (hg : g.Nodup) :
    "auto detect" ∉ (googleKeys g).erase "auto detect" := by
  intro h
  have := ((nodup_googleKeys hg).mem_erase_iff).1 h
  exact this.1 rfl

theorem resolve_targets_no_autodetect (g d m : List String) (hg : g.Nodup)
    (hga : "Auto detect" ∉ g) (hd : "auto detect" ∉ d) (hda : "Auto detect" ∉ d)
    (hm : "auto detect" ∉ m) (hma : "Auto detect" ∉ m) :
    ∀ p ∈ TL_ENGINE_TARGET_DICT g d m,
      "Auto detect" ∉ p.2 ∧ "auto detect" ∉ p.2 := by
  intro p hp
  simp only [TL_ENGINE_TARGET_DICT, List.mem_cons, List.not_mem_nil, or_false] at hp
  rcases hp with rfl|rfl|rfl|rfl|rfl|rfl|rfl|rfl|rfl|rfl|rfl
  · exact ⟨by decide, by decide⟩
  · exact ⟨by decide, by decide⟩
  · exact ⟨by decide, by decide⟩
  · exact ⟨by decide, by decide⟩
  · exact ⟨by decide, by decide⟩
  · exact ⟨by decide, by decide⟩
  · exact ⟨by decide, by decide⟩
  · -- Google Translate
    constructor
    · intro hmem
      unfold GOOGLE_TARGET at hmem
      rw [mem_sortStrings] at hmem
      rcases List.mem_map.1 hmem with ⟨x, hx, hux⟩
      rcases up_first_case_eq_autodetect hux with rfl | rfl
      · rcases mem_googleKeys (List.mem_of_mem_erase hx) with h | h | h
        · exact hga h
        · exact absurd h (by decide)
        · exact absurd h (by decide)
      · exact autodetect_not_mem_erase hg hx
    · intro hmem
      unfold GOOGLE_TARGET at hmem
      rw [mem_sortStrings] at hmem
      rcases List.mem_map.1 hmem with ⟨x, _, hux⟩
      exact up_first_case_ne_lower_autodetect x hux
  · -- DEEPL Translate
    constructor
    · intro hmem
      unfold DEEPL_TARGET at hmem
      rw [mem_sortStrings] at hmem
      rcases List.mem_map.1 hmem with ⟨x, hx, hux⟩
      rcases up_first_case_eq_autodetect hux with rfl | rfl
      · exact hda hx
      · exact hd hx
    · intro hmem
      unfold DEEPL_TARGET at hmem
      rw [mem_sortStrings] at hmem
      rcases List.mem_map.1 hmem with ⟨x, _, hux⟩
      exact up_first_case_ne_lower_autodetect x hux
  · -- LibreTranslate
    exact ⟨by decide, by decide⟩
  · -- MyMemoryTranslator
    constructor
    · intro hmem
      unfold MY_MEMORY_TARGET at hmem
      rw [mem_sortStrings] at hmem
      rcases List.mem_map.1 hmem with ⟨x, hx, hux⟩
      rcases up_first_case_eq_autodetect hux with rfl | rfl
      · rcases mem_mymemoryKeys hx with h | h
        · exact hma h
        · exact absurd h (by decide)
      · rcases mem_mymemoryKeys hx with h | h
        · exact hm h
        · exact absurd h (by decide)
    · intro hmem
      unfold MY_MEMORY_TARGET at hmem
      rw [mem_sortStrings] at hmem
      rcases List.mem_map.1 hmem with ⟨x, _, hux⟩
      exact up_first_case_ne_lower_autodetect x hux

/-- Claim C7 witness: concrete vocabularies; the Google target list contains
no auto-detect token. -/
theorem resolve_targets_no_autodetect_witness :
    "Auto detect" ∉ ("Google Translate", GOOGLE_TARGET ["english"]).2 ∧
    "auto detect" ∉ ("Google Translate", GOOGLE_TARGET ["english"]).2 :=
  resolve_targets_no_autodetect ["english"] ["english"] ["english"] (by decide)
    (by decide) (by decide) (by decide) (by decide) (by decide)
    ("Google Translate", GOOGLE_TARGET ["english"]) (by decide)

/-! ## Claims C1, C2, C3, C9: launch gating and model checking -/

/-- A successful `check_model` call reports the resolved model name. -/
theorem check_model_status_model (st : CheckSettings) (key : String)
    (is_english force : Bool) (verify : Bool → String → VerifyOutcome) (confirm : Bool)
    (h : (check_model st key is_english force verify confirm).status = true) :
    (check_model st key is_english force verify confirm).model =
      append_dot_en key is_english st.use_en_model := by
  simp only [check_model] at h ⊢
  cases hv : verify (if force = true then false else st.use_faster_whisper)
      (append_dot_en key is_english st.use_en_model) with
  | ok present =>
    rw [hv] at h
    cases present
    · simp at h
    · rfl
  | exn msg =>
    rw [hv] at h
    by_cases hc : strContains msg "HTTPSConnectionPool" = true
    · simp only [hc, if_true] at h ⊢
      by_cases hb : st.bypass_no_internet = true
      · simp [hb]
      · rw [Bool.not_eq_true] at hb
        simp [hb] at h
    · rw [Bool.not_eq_true] at hc
      simp [hc] at h

/-- A resolved local-model name is never the remote engine label
`"LibreTranslate"`. -/
theorem model_name_ne_libre {k : String} (hk : k ∈ model_keys) (e u : Bool) :
    append_dot_en k e u ≠ "LibreTranslate" := by
  unfold append_dot_en
  simp only [model_keys, List.mem_cons, List.not_mem_nil, or_false] at hk
  cases he : e && u <;>
    rcases hk with rfl | rfl | rfl | rfl | rfl | rfl | rfl <;> decide

/-- Claim C9: a connectivity failure of the model-presence check (the raised
message contains "HTTPSConnectionPool") is treated as ready when the bypass
policy is enabled, fails the request with nothing spawned when bypass is
disabled, a non-connectivity check error always fails the request, and a
definitive "model absent" answer is handled differently (the request stops
and the download prompt decides whether an acquisition starts). -/
theorem check_model_connectivity_policy (st : CheckSettings) (key : String)
    (is_english force : Bool) (verify : Bool → String → VerifyOutcome)
    (confirm : Bool) (msg : String)
    (herr : verify (if force then false else st.use_faster_whisper)
        (append_dot_en key is_english st.use_en_model) = .exn msg) :
    (strContains msg "HTTPSConnectionPool" = true → st.bypass_no_internet = true →
      check_model st key is_english force verify confirm =
        ⟨true, append_dot_en key is_english st.use_en_model, false⟩) ∧
    (strContains msg "HTTPSConnectionPool" = true → st.bypass_no_internet = false →
      check_model st key is_english force verify confirm = ⟨false, "", false⟩) ∧
    (strContains msg "HTTPSConnectionPool" = false →
      check_model st key is_english force verify confirm = ⟨false, "", false⟩) ∧
    (∀ verify2 : Bool → String → VerifyOutcome,
      verify2 (if force then false else st.use_faster_whisper)
          (append_dot_en key is_english st.use_en_model) = .ok false →
      check_model st key is_english force verify2 confirm = ⟨false, "", confirm⟩) := by
  refine ⟨?_, ?_, ?_, ?_⟩
  · intro hc hb
    simp only [check_model]
    rw [herr]
    simp [hc, hb]
  · intro hc hb
    simp only [check_model]
    rw [herr]
    simp [hc, hb]
  · intro hc
    simp only [check_model]
    rw [herr]
    simp [hc]
  · intro verify2 hmiss
    simp only [check_model]
    rw [hmiss]

/-- Claim C9 witness: a concrete connectivity failure with bypass enabled is
treated as ready. -/
theorem check_model_connectivity_policy_witness :
    check_model ⟨false, false, true⟩ "⚡ Tiny [1GB VRAM] (Fastest)" false false
      (fun _ _ => .exn "HTTPSConnectionPool: host might be down") true =
      ⟨true, "⚡ Tiny [1GB VRAM] (Fastest)", false⟩ :=
  (check_model_connectivity_policy ⟨false, false, true⟩
    "⚡ Tiny [1GB VRAM] (Fastest)" false false
    (fun _ _ => .exn "HTTPSConnectionPool: host might be down") true
    "HTTPSConnectionPool: host might be down" rfl).1 (by decide) rfl

/-- Claim C2: a launch request made while the gate is not open (a download is
in flight or the launch widget is disabled) fails as busy with no side
effects: no `check_model`/Verify call, no worker spawned, for both the record
and the import entry points. -/
theorem gate_busy_no_side_effects (env : GateEnv) (a : LaunchArgs)
    (st : CheckSettings) (verify : Bool → String → VerifyOutcome) (confirm : Bool)
    (h : env.dl_alive = true ∨ env.btn_disabled = true) :
    ((rec env a st verify confirm).result = .busyDownloading ∨
      (rec env a st verify confirm).result = .widgetDisabled) ∧
    (rec env a st verify confirm).checkCalls = [] ∧
    (rec env a st verify confirm).opStarted = false ∧
    ((import_file env a st verify confirm).result = .busyDownloading ∨
      (import_file env a st verify confirm).result = .widgetDisabled) ∧
    (import_file env a st verify confirm).checkCalls = [] ∧
    (import_file env a st verify confirm).opStarted = false := by
  rcases h with h | h
  · simp [rec, import_file, h]
  · cases hdl : env.dl_alive <;> simp [rec, import_file, h, hdl]

/-- Claim C2 witness: a launch attempted while a download is in flight. -/
theorem gate_busy_no_side_effects_witness :
    ((rec ⟨true, false, false, true, true, true, true, true⟩
      ⟨true, true, "⚡ Tiny [1GB VRAM] (Fastest)", "Google Translate", "english",
        "spanish"⟩ ⟨false, false, false⟩ (fun _ _ => .ok true) true).result =
        .busyDownloading ∨
      (rec ⟨true, false, false, true, true, true, true, true⟩
      ⟨true, true, "⚡ Tiny [1GB VRAM] (Fastest)", "Google Translate", "english",
        "spanish"⟩ ⟨false, false, false⟩ (fun _ _ => .ok true) true).result =
        .widgetDisabled) ∧
    (rec ⟨true, false, false, true, true, true, true, true⟩
      ⟨true, true, "⚡ Tiny [1GB VRAM] (Fastest)", "Google Translate", "english",
        "spanish"⟩ ⟨false, false, false⟩ (fun _ _ => .ok true) true).checkCalls = [] ∧
    (rec ⟨true, false, false, true, true, true, true, true⟩
      ⟨true, true, "⚡ Tiny [1GB VRAM] (Fastest)", "Google Translate", "english",
        "spanish"⟩ ⟨false, false, false⟩ (fun _ _ => .ok true) true).opStarted = false ∧
    ((import_file ⟨true, false, false, true, true, true, true, true⟩
      ⟨true, true, "⚡ Tiny [1GB VRAM] (Fastest)", "Google Translate", "english",
        "spanish"⟩ ⟨false, false, false⟩ (fun _ _ => .ok true) true).result =
        .busyDownloading ∨
      (import_file ⟨true, false, false, true, true, true, true, true⟩
      ⟨true, true, "⚡ Tiny [1GB VRAM] (Fastest)", "Google Translate", "english",
        "spanish"⟩ ⟨false, false, false⟩ (fun _ _ => .ok true) true).result =
        .widgetDisabled) ∧
    (import_file ⟨true, false, false, true, true, true, true, true⟩
      ⟨true, true, "⚡ Tiny [1GB VRAM] (Fastest)", "Google Translate", "english",
        "spanish"⟩ ⟨false, false, false⟩ (fun _ _ => .ok true) true).checkCalls = [] ∧
    (import_file ⟨true, false, false, true, true, true, true, true⟩
      ⟨true, true, "⚡ Tiny [1GB VRAM] (Fastest)", "Google Translate", "english",
        "spanish"⟩ ⟨false, false, false⟩ (fun _ _ => .ok true) true).opStarted =
        false :=
  gate_busy_no_side_effects ⟨true, false, false, true, true, true, true, true⟩
    ⟨true, true, "⚡ Tiny [1GB VRAM] (Fastest)", "Google Translate", "english",
      "spanish"⟩ ⟨false, false, false⟩ (fun _ _ => .ok true) true (Or.inl rfl)

/-- Claim C3: with the gate otherwise open, a configuration requesting
translation with source equal to target is rejected as invalid before any
model verification or worker spawn, in both the record entry point and
the file-import dialog callback. -/
theorem config_invalid_before_state_change (env : GateEnv) (a : LaunchArgs)
    (st : CheckSettings) (verify : Bool → String → VerifyOutcome) (confirm : Bool)
    (hdl : env.dl_alive = false) (hbtn : env.btn_disabled = false)
    (hspk : (env.is_speaker && !env.is_windows) = false)
    (htl : a.tl = true) (heq : a.source = a.target) :
    rec env a st verify confirm = ⟨.configInvalid, [], false⟩ ∧
    import_file env a st verify confirm = ⟨.configInvalid, [], false⟩ ∧
    import_do_process env a st verify confirm = ⟨.configInvalid, [], false⟩ := by
  refine ⟨?_, ?_, ?_⟩ <;>
    simp [rec, import_file, import_do_process, hdl, hbtn, hspk, htl, heq]

/-- Claim C3 witness: translating english to english is rejected with no
check calls and no spawn. -/
theorem config_invalid_before_state_change_witness :
    rec ⟨false, false, false, true, true, true, true, true⟩
      ⟨true, true, "⚡ Tiny [1GB VRAM] (Fastest)", "Google Translate", "english",
        "english"⟩ ⟨false, false, false⟩ (fun _ _ => .ok true) true =
      ⟨.configInvalid, [], false⟩ ∧
    import_file ⟨false, false, false, true, true, true, true, true⟩
      ⟨true, true, "⚡ Tiny [1GB VRAM] (Fastest)", "Google Translate", "english",
        "english"⟩ ⟨false, false, false⟩ (fun _ _ => .ok true) true =
      ⟨.configInvalid, [], false⟩ ∧
    import_do_process ⟨false, false, false, true, true, true, true, true⟩
      ⟨true, true, "⚡ Tiny [1GB VRAM] (Fastest)", "Google Translate", "english",
        "english"⟩ ⟨false, false, false⟩ (fun _ _ => .ok true) true =
      ⟨.configInvalid, [], false⟩ :=
  config_invalid_before_state_change ⟨false, false, false, true, true, true, true, true⟩
    ⟨true, true, "⚡ Tiny [1GB VRAM] (Fastest)", "Google Translate", "english",
      "english"⟩ ⟨false, false, false⟩ (fun _ _ => .ok true) true rfl rfl rfl rfl rfl

/-- Claim C1 counterexample: with both transcribe and translate requested and
the translate engine equal to the very same local model as the transcription
model, the record entry point performs two `check_model` (Verify) calls for
that one model reference, not one. -/
theorem double_check_counterexample :
    ((rec ⟨false, false, false, true, true, true, true, true⟩
      ⟨true, true, "⚡ Tiny [1GB VRAM] (Fastest)", "⚡ Tiny [1GB VRAM] (Fastest)",
        "english", "spanish"⟩
      ⟨false, false, false⟩ (fun _ _ => .ok true) true).checkCalls.count
        "⚡ Tiny [1GB VRAM] (Fastest)") = 2 := by decide

/-- Translate-only with a local translate engine: one check, reused. -/
theorem translate_only_model_reuse (env : GateEnv) (a : LaunchArgs)
    (st : CheckSettings) (verify : Bool → String → VerifyOutcome) (confirm : Bool)
    (hdl : env.dl_alive = false) (hbtn : env.btn_disabled = false)
    (hspk : (env.is_speaker && !env.is_windows) = false)
    (hcfg : (a.source == a.target && a.tl) = false)
    (htl : a.tl = true) (htc : a.tc = false)
    (hw : a.tl_engine ∈ model_keys)
    (hok : (check_model st a.tl_engine (a.source == "english") false verify
      confirm).status = true) :
    rec env a st verify confirm =
      ⟨.launched
        ((check_model st a.tl_engine (a.source == "english") false verify confirm).model)
        ((check_model st a.tl_engine (a.source == "english") false verify confirm).model),
       [a.tl_engine], true⟩ := by
  have hmodel := check_model_status_model st a.tl_engine (a.source == "english")
    false verify confirm hok
  have hnl : ((check_model st a.tl_engine (a.source == "english") false verify
      confirm).model == "LibreTranslate") = false := by
    rw [hmodel]
    exact beq_eq_false_iff_ne.2 (model_name_ne_libre hw _ _)
  have hne : ¬(a.source = a.target) := by
    rw [htl, Bool.and_true] at hcfg
    exact beq_eq_false_iff_ne.1 hcfg
  simp [rec, launchCore, hdl, hbtn, hspk, hne, htl, htc, hw, hok, hnl]

/-- Both tasks with a local translate engine: two independent checks. -/
theorem both_tasks_two_checks (env : GateEnv) (a : LaunchArgs)
    (st : CheckSettings) (verify : Bool → String → VerifyOutcome) (confirm : Bool)
    (hdl : env.dl_alive = false) (hbtn : env.btn_disabled = false)
    (hspk : (env.is_speaker && !env.is_windows) = false)
    (hcfg : (a.source == a.target && a.tl) = false)
    (htl : a.tl = true) (htc : a.tc = true)
    (hw : a.tl_engine ∈ model_keys)
    (h1 : (check_model st a.m_key (a.source == "english") false verify
      confirm).status = true)
    (h2 : (check_model st a.tl_engine (a.source == "english") false verify
      confirm).status = true) :
    rec env a st verify confirm =
      ⟨.launched
        ((check_model st a.m_key (a.source == "english") false verify confirm).model)
        ((check_model st a.tl_engine (a.source == "english") false verify confirm).model),
       [a.m_key, a.tl_engine], true⟩ := by
  have hmodel := check_model_status_model st a.tl_engine (a.source == "english")
    false verify confirm h2
  have hnl : ((check_model st a.tl_engine (a.source == "english") false verify
      confirm).model == "LibreTranslate") = false := by
    rw [hmodel]
    exact beq_eq_false_iff_ne.2 (model_name_ne_libre hw _ _)
  have hne : ¬(a.source = a.target) := by
    rw [htl, Bool.and_true] at hcfg
    exact beq_eq_false_iff_ne.1 hcfg
  simp [rec, launchCore, hdl, hbtn, hspk, hne, htl, htc, hw, h1, h2, hnl]

/-- Claim C1 (amended): the transcription/translation model reference is
reused — with a single `check_model` (Verify) call — exactly when translate
is requested *without* transcribe and the translate engine is a local model;
when both transcribe and translate are requested with a local translate
engine, the two references are verified independently: two `check_model`
calls are made (one per reference), even when the references are equal. -/
theorem model_resolution_amended :
    (∀ (env : GateEnv) (a : LaunchArgs) (st : CheckSettings)
        (verify : Bool → String → VerifyOutcome) (confirm : Bool),
      env.dl_alive = false → env.btn_disabled = false →
      (env.is_speaker && !env.is_windows) = false →
      (a.source == a.target && a.tl) = false →
      a.tl = true → a.tc = false → a.tl_engine ∈ model_keys →
      (check_model st a.tl_engine (a.source == "english") false verify
        confirm).status = true →
      rec env a st verify confirm =
        ⟨.launched
          ((check_model st a.tl_engine (a.source == "english") false verify confirm).model)
          ((check_model st a.tl_engine (a.source == "english") false verify confirm).model),
         [a.tl_engine], true⟩) ∧
    (∀ (env : GateEnv) (a : LaunchArgs) (st : CheckSettings)
        (verify : Bool → String → VerifyOutcome) (confirm : Bool),
      env.dl_alive = false → env.btn_disabled = false →
      (env.is_speaker && !env.is_windows) = false →
      (a.source == a.target && a.tl) = false →
      a.tl = true → a.tc = true → a.tl_engine ∈ model_keys →
      (check_model st a.m_key (a.source == "english") false verify
        confirm).status = true →
      (check_model st a.tl_engine (a.source == "english") false verify
        confirm).status = true →
      rec env a st verify confirm =
        ⟨.launched
          ((check_model st a.m_key (a.source == "english") false verify confirm).model)
          ((check_model st a.tl_engine (a.source == "english") false verify confirm).model),
         [a.m_key, a.tl_engine], true⟩) :=
  ⟨fun env a st verify confirm hdl hbtn hspk hcfg htl htc hw hok =>
    translate_only_model_reuse env a st verify confirm hdl hbtn hspk hcfg htl htc hw hok,
   fun env a st verify confirm hdl hbtn hspk hcfg htl htc hw h1 h2 =>
    both_tasks_two_checks env a st verify confirm hdl hbtn hspk hcfg htl htc hw h1 h2⟩

/-- Claim C1 witness: concrete translate-only reuse and concrete double check
when both tasks are requested on the same model reference. -/
theorem model_resolution_amended_witness :
    rec ⟨false, false, false, true, true, true, true, true⟩
      ⟨false, true, "unused", "⚡ Tiny [1GB VRAM] (Fastest)", "english", "spanish"⟩
      ⟨false, false, false⟩ (fun _ _ => .ok true) true =
      ⟨.launched
        ((check_model ⟨false, false, false⟩ "⚡ Tiny [1GB VRAM] (Fastest)"
          ("english" == "english") false (fun _ _ => .ok true) true).model)
        ((check_model ⟨false, false, false⟩ "⚡ Tiny [1GB VRAM] (Fastest)"
          ("english" == "english") false (fun _ _ => .ok true) true).model),
       ["⚡ Tiny [1GB VRAM] (Fastest)"], true⟩ ∧
    rec ⟨false, false, false, true, true, true, true, true⟩
      ⟨true, true, "⚡ Tiny [1GB VRAM] (Fastest)", "⚡ Tiny [1GB VRAM] (Fastest)",
        "english", "spanish"⟩
      ⟨false, false, false⟩ (fun _ _ => .ok true) true =
      ⟨.launched
        ((check_model ⟨false, false, false⟩ "⚡ Tiny [1GB VRAM] (Fastest)"
          ("english" == "english") false (fun _ _ => .ok true) true).model)
        ((check_model ⟨false, false, false⟩ "⚡ Tiny [1GB VRAM] (Fastest)"
          ("english" == "english") false (fun _ _ => .ok true) true).model),
       ["⚡ Tiny [1GB VRAM] (Fastest)", "⚡ Tiny [1GB VRAM] (Fastest)"], true⟩ :=
  ⟨model_resolution_amended.1 ⟨false, false, false, true, true, true, true, true⟩
    ⟨false, true, "unused", "⚡ Tiny [1GB VRAM] (Fastest)", "english", "spanish"⟩
    ⟨false, false, false⟩ (fun _ _ => .ok true) true rfl rfl rfl (by decide) rfl rfl
    (by decide) rfl,
   model_resolution_amended.2 ⟨false, false, false, true, true, true, true, true⟩
    ⟨true, true, "⚡ Tiny [1GB VRAM] (Fastest)", "⚡ Tiny [1GB VRAM] (Fastest)",
      "english", "spanish"⟩
    ⟨false, false, false⟩ (fun _ _ => .ok true) true rfl rfl rfl (by decide) rfl rfl
    (by decide) rfl rfl⟩

end SpeechTranslate
